import Mathlib

/-!
Shallow embedding of the display-state derivation logic of `src/App.tsx`
(a single-screen clock/dashboard app): time formatting, network and battery
quantization, weather fetch state and weather summarization.

JavaScript numbers are modelled as exact rationals (`ℚ`); derived integer
levels as `ℤ`; nullable values as `Option`; JS arrays as `List`.
-/

/-- JS `Math.round`: rounds half toward positive infinity, `⌊x + 1/2⌋`. -/
def jsRound (x : ℚ) : ℤ := ⌊x + 1/2⌋

/-- Evaluation rule for `jsRound` at a known value. -/
theorem jsRound_eq (x : ℚ) (n : ℤ) (h1 : (n : ℚ) ≤ x + 1/2)
    (h2 : x + 1/2 < (n : ℚ) + 1) : jsRound x = n :=
  Int.floor_eq_iff.mpr ⟨h1, h2⟩

/-- JS `Array.prototype.slice(begin)` with a single, possibly negative,
integer argument: a negative index counts from the end of the array. -/
def jsSlice {α : Type} (l : List α) (b : ℤ) : List α :=
  if b < 0 then l.drop (max ((l.length : ℤ) + b) 0).toNat
  else l.drop b.toNat

/-- Maximum of a list with a default for the empty list; models the guarded
`probs.length > 0 ? Math.max(...probs) : fallback` pattern. -/
def listMaxD (l : List ℤ) (d : ℤ) : ℤ :=
  match l with
  | [] => d
  | p :: ps => ps.foldl max p

/-! ## Time formatter (`getTime`, src/App.tsx lines 90–102) -/

structure TimeParts where
  hours : ℕ
  minutes : ℕ
  ampm : ℕ
  deriving DecidableEq, Repr

/-- `getTime` from the source: `hours24 % 12 || 12`, the redundant
`minutes < 10 ? 0 + minutes : minutes`, and `ampm = hours24 >= 12 ? 1 : 0`. -/
def getTime (hours24 minutes : ℕ) : TimeParts :=
  { hours := if hours24 % 12 = 0 then 12 else hours24 % 12
    minutes := if minutes < 10 then 0 + minutes else minutes
    ampm := if 12 ≤ hours24 then 1 else 0 }

/-! ## Weather data model (Open-Meteo API response shape) -/

structure CurrentWeather where
  time : String
  temperature_2m : ℚ
  weathercode : ℤ
  precipitation_probability : ℤ
  deriving DecidableEq, Repr

structure HourlyWeather where
  time : List String
  temperature_2m : List ℚ
  weathercode : List ℤ
  precipitation_probability : List ℤ
  deriving DecidableEq, Repr

structure DailyWeather where
  time : List String
  weathercode : List ℤ
  temperature_2m_max : List ℚ
  temperature_2m_min : List ℚ
  precipitation_probability_max : List ℤ
  deriving DecidableEq, Repr

structure WeatherApiResponse where
  current : CurrentWeather
  hourly : HourlyWeather
  daily : DailyWeather
  deriving DecidableEq, Repr

/-! ## Weather fetch state machine (`fetchWeather` effect, lines 171–205)

The component state consists of `weather` (initially null), `weatherError`
(initially null) and `weatherLoading` (initially true).  Each fetch attempt
resolves either successfully with a parsed response, or with a failure
carrying an error message (network error, timeout abort, or the thrown
`HTTP error! status: ...`); in the `try`/`catch`/`finally`, success stores
the data (error having been reset to null at the start of the attempt),
failure stores the message and leaves `weather` untouched, and `finally`
always sets `weatherLoading` to false. -/

structure WeatherState where
  weather : Option WeatherApiResponse
  weatherError : Option String
  weatherLoading : Bool
  deriving DecidableEq, Repr

def initialWeatherState : WeatherState :=
  { weather := none, weatherError := none, weatherLoading := true }

inductive FetchResult where
  | success (data : WeatherApiResponse)
  | failure (msg : String)
  deriving DecidableEq, Repr

/-- State update performed by one resolved `fetchWeather` attempt. -/
def fetchWeatherStep (s : WeatherState) (r : FetchResult) : WeatherState :=
  match r with
  | .success data =>
      { weather := some data, weatherError := none, weatherLoading := false }
  | .failure msg =>
      { weather := s.weather, weatherError := some msg, weatherLoading := false }

/-- A sequence of resolved fetch attempts applied in order. -/
def runFetches (s : WeatherState) (rs : List FetchResult) : WeatherState :=
  rs.foldl fetchWeatherStep s

/-! ## Weather summarization (`WeatherSummary`, lines 385–432) -/

/-- `weather.hourly.time.findIndex(t => t === currentTime)`: index of the
current observation's timestamp in the hourly series, `-1` if absent. -/
def currentIndex (w : WeatherApiResponse) : ℤ :=
  match w.hourly.time.findIdx? (fun t => t == w.current.time) with
  | some i => (i : ℤ)
  | none => -1

/-- `currentIndex !== -1 ? currentIndex + 1 : -1`. -/
def nextHourIndex (w : WeatherApiResponse) : ℤ :=
  if currentIndex w ≠ -1 then currentIndex w + 1 else -1

/-- `weather.hourly.precipitation_probability.slice(nextHourIndex)`. -/
def restOfDayProbs (w : WeatherApiResponse) : List ℤ :=
  jsSlice w.hourly.precipitation_probability (nextHourIndex w)

/-- `restOfDayProbs.length > 0 ? Math.max(...restOfDayProbs)
    : weather.current.precipitation_probability`. -/
def maxPrecipitation (w : WeatherApiResponse) : ℤ :=
  match restOfDayProbs w with
  | [] => w.current.precipitation_probability
  | p :: ps => ps.foldl max p

/-- `nextHourIndex !== -1 && weather.hourly.temperature_2m[nextHourIndex] >
weather.current.temperature_2m`; an out-of-bounds JS index reads `undefined`
and `undefined > x` is false. -/
def isRising (w : WeatherApiResponse) : Bool :=
  nextHourIndex w != -1 &&
    (match w.hourly.temperature_2m.get? (nextHourIndex w).toNat with
     | some t => decide (w.current.temperature_2m < t)
     | none => false)

/-! ## Precipitation rendering (lines 409–424) -/

/-- `maxPrecipitation < 3` selects the muted closed-umbrella branch. -/
def precipShowsClosed (p : ℤ) : Bool := p < 3

/-- `maxPrecipitation >= 20 ? "umbrella" : "umbrella-outline"`. -/
def precipIconName (p : ℤ) : String :=
  if 20 ≤ p then "umbrella" else "umbrella-outline"

/-- `maxPrecipitation >= 20 ? "#ffffff" : "#9aa0a6"`. -/
def precipIconColor (p : ℤ) : String :=
  if 20 ≤ p then "#ffffff" else "#9aa0a6"

/-! ## Network quantizer (`NetworkIndicator`, lines 250–304) -/

structure NetInfoState where
  type : String
  isConnected : Option Bool
  isInternetReachable : Option Bool
  strength : Option ℚ
  signalStrength : Option ℚ
  deriving DecidableEq, Repr

/-- `net?.isConnected === true && net?.isInternetReachable !== false`. -/
def netConnected (n : NetInfoState) : Bool :=
  n.isConnected == some true && !(n.isInternetReachable == some false)

/-- Wi‑Fi level 0–3:
`wifiStrength != null ? Math.max(0, Math.min(3, Math.round(wifiStrength / 34))) : 0`. -/
def wifiLevelOf : Option ℚ → ℤ
  | none => 0
  | some s => max 0 (min 3 (jsRound (s / 34)))

/-- Cellular level 0–4 from the raw `signalStrength` value: percentage
branch for 0..100, dBm branch for -140..-44, fallback 2 otherwise, 0 when
the value is absent. -/
def cellLevelOf : Option ℚ → ℤ
  | none => 0
  | some cellStrength =>
      if 0 ≤ cellStrength ∧ cellStrength ≤ 100 then
        max 0 (min 4 (jsRound (cellStrength / 100 * 4)))
      else if -140 ≤ cellStrength ∧ cellStrength ≤ -44 then
        max 0 (min 4 (jsRound ((cellStrength + 140) / (-44 + 140) * 4)))
      else 2

/-- `connected && type === 'wifi'`. -/
def wifiActive (n : NetInfoState) : Bool :=
  netConnected n && n.type == "wifi"

/-- `connected && type !== 'wifi' && type !== 'unknown' && type !== 'none'`. -/
def cellActive (n : NetInfoState) : Bool :=
  netConnected n && !(n.type == "wifi") && !(n.type == "unknown")
    && !(n.type == "none")

/-- Opacity of the `i`-th cellular bar:
`cellActive ? (i < cellLevel ? 1 : 0.45) : 0.45`. -/
def cellBarOpacity (n : NetInfoState) (i : ℕ) : ℚ :=
  if cellActive n then
    (if (i : ℤ) < cellLevelOf n.signalStrength then 1 else 0.45)
  else 0.45

/-- `outerOpacity = wifiActive ? (wifiLevel >= 3 ? 1 : 0.45) : 0.45`. -/
def wifiOuterOpacity (n : NetInfoState) : ℚ :=
  if wifiActive n then (if 3 ≤ wifiLevelOf n.strength then 1 else 0.45)
  else 0.45

/-- `midOpacity = wifiActive ? (wifiLevel >= 2 ? 1 : 0.45) : 0.45`. -/
def wifiMidOpacity (n : NetInfoState) : ℚ :=
  if wifiActive n then (if 2 ≤ wifiLevelOf n.strength then 1 else 0.45)
  else 0.45

/-- `dotOpacity = wifiActive ? (wifiLevel >= 1 ? 1 : 0.45) : 0.45`. -/
def wifiDotOpacity (n : NetInfoState) : ℚ :=
  if wifiActive n then (if 1 ≤ wifiLevelOf n.strength then 1 else 0.45)
  else 0.45

/-! ## Battery quantizer (`formatBatteryPercent`, `BatteryIcon`,
lines 346–366); `none` models a null power state or null battery level. -/

/-- `if (!power || power.batteryLevel == null || power.batteryLevel < 0)
return '—%'; return Math.round(power.batteryLevel * 100) + '%'`. -/
def formatBatteryPercent (batteryLevel : Option ℚ) : String :=
  match batteryLevel with
  | none => "—%"
  | some l => if l < 0 then "—%" else toString (jsRound (l * 100)) ++ "%"

/-- `level != null && level >= 0 ? Math.max(0, Math.min(1, level)) : -1`. -/
def batteryClamped (level : ℚ) : ℚ :=
  if 0 ≤ level then max 0 (min 1 level) else -1

/-- Battery body inner width in pixels. -/
def innerPx : ℚ := 20

/-- `clamped >= 0 ? Math.round(innerPx * clamped) : 0`. -/
def batteryFillPx (level : ℚ) : ℤ :=
  if 0 ≤ batteryClamped level then jsRound (innerPx * batteryClamped level)
  else 0

/-! # Theorems -/

/-- C5: for every hour-of-day h in [0,23] and minute m in [0,59], the derived
display time has hours = h mod 12, or 12 when h mod 12 is 0 (always in
[1,12]); meridiem is PM (1) iff h ≥ 12; and minutes equals m unchanged. -/
theorem time_formatter_spec (h m : ℕ) (hh : h < 24) (hm : m < 60) :
    (getTime h m).hours = (if h % 12 = 0 then 12 else h % 12) ∧
    1 ≤ (getTime h m).hours ∧ (getTime h m).hours ≤ 12 ∧
    ((getTime h m).ampm = 1 ↔ 12 ≤ h) ∧
    (getTime h m).minutes = m := by
  refine ⟨rfl, ?_, ?_, ?_, ?_⟩
  · show 1 ≤ (if h % 12 = 0 then 12 else h % 12)
    split <;> omega
  · show (if h % 12 = 0 then 12 else h % 12) ≤ 12
    split <;> omega
  · show (if 12 ≤ h then 1 else 0) = 1 ↔ 12 ≤ h
    split <;> simp [*]
  · show (if m < 10 then 0 + m else m) = m
    split <;> omega

/-- Witness for C5 at h = 13, m = 5. -/
theorem time_formatter_spec_witness :
    (13 : ℕ) < 24 ∧ (5 : ℕ) < 60 ∧
    ((getTime 13 5).hours = (if 13 % 12 = 0 then 12 else 13 % 12) ∧
     1 ≤ (getTime 13 5).hours ∧ (getTime 13 5).hours ≤ 12 ∧
     ((getTime 13 5).ampm = 1 ↔ 12 ≤ 13) ∧
     (getTime 13 5).minutes = 5) :=
  ⟨by decide, by decide, time_formatter_spec 13 5 (by decide) (by decide)⟩

/-- Loading is false after any resolved fetch and stays false afterwards. -/
theorem runFetches_loading_false (s : WeatherState) (r : FetchResult)
    (rs : List FetchResult) :
    (runFetches s (r :: rs)).weatherLoading = false := by
  induction rs generalizing s r with
  | nil => cases r <;> rfl
  | cons r' rs ih =>
      show (runFetches (fetchWeatherStep s r) (r' :: rs)).weatherLoading = false
      exact ih _ r'

/-- C2: every failed fetch attempt leaves the stored snapshot unchanged and
records the failure's message as the error; the loading flag starts true and
is false after any nonempty sequence of resolved fetch attempts (it is never
set true again once the first attempt resolves). -/
theorem weather_fetch_error_handling (s : WeatherState) (msg : String)
    (r : FetchResult) (rs : List FetchResult) :
    (fetchWeatherStep s (.failure msg)).weather = s.weather ∧
    (fetchWeatherStep s (.failure msg)).weatherError = some msg ∧
    initialWeatherState.weatherLoading = true ∧
    (runFetches initialWeatherState (r :: rs)).weatherLoading = false :=
  ⟨rfl, rfl, rfl, runFetches_loading_false _ r rs⟩

/-- C6: battery level below 0 (or absent) renders the placeholder and a
zero-width fill; a level in [0,1] renders round(L*100)% and fill width
round(20*L); a level above 1 clamps the fill to the full inner width 20. -/
theorem battery_quantizer_spec (L : ℚ) :
    (L < 0 → formatBatteryPercent (some L) = "—%" ∧ batteryFillPx L = 0) ∧
    (0 ≤ L → L ≤ 1 →
      formatBatteryPercent (some L) = toString (jsRound (L * 100)) ++ "%" ∧
      batteryFillPx L = jsRound (20 * L)) ∧
    (1 < L → batteryFillPx L = 20) ∧
    formatBatteryPercent none = "—%" := by
  refine ⟨fun hL => ⟨?_, ?_⟩, fun h0 h1 => ⟨?_, ?_⟩, fun h1 => ?_, rfl⟩
  · simp [formatBatteryPercent, hL]
  · simp [batteryFillPx, batteryClamped, if_neg (not_le.mpr hL)]
  · simp [formatBatteryPercent, not_lt.mpr h0]
  · have hc : batteryClamped L = L := by
      simp [batteryClamped, if_pos h0, max_eq_right, min_eq_right h1, h0]
    simp [batteryFillPx, hc, if_pos h0, innerPx]
  · have h0 : (0 : ℚ) ≤ L := le_of_lt (lt_trans one_pos h1)
    have hc : batteryClamped L = 1 := by
      unfold batteryClamped
      rw [if_pos h0, min_eq_left (le_of_lt h1)]
      exact max_eq_right zero_le_one
    rw [batteryFillPx, hc]
    norm_num [innerPx, jsRound]

/-- Witness for C6 at L = 1/2: "50%" and fill width 10. -/
theorem battery_quantizer_spec_witness :
    (0 : ℚ) ≤ 1/2 ∧ (1/2 : ℚ) ≤ 1 ∧
    formatBatteryPercent (some (1/2)) = toString (jsRound ((1/2 : ℚ) * 100)) ++ "%" ∧
    batteryFillPx (1/2) = jsRound (20 * (1/2 : ℚ)) :=
  ⟨by norm_num, by norm_num,
   ((battery_quantizer_spec (1/2)).2.1 (by norm_num) (by norm_num)).1,
   ((battery_quantizer_spec (1/2)).2.1 (by norm_num) (by norm_num)).2⟩

/-- C9 (implicit): for L > 1 the percentage text is the unclamped
round(L*100)% while the fill width clamps to the full 20 pixels, so the two
diverge; e.g. L = 1.5 renders "150%" over a full-width fill. -/
theorem battery_percent_unclamped_above_one (L : ℚ) (h1 : 1 < L) :
    formatBatteryPercent (some L) = toString (jsRound (L * 100)) ++ "%" ∧
    batteryFillPx L = 20 := by
  have h0 : (0 : ℚ) ≤ L := le_of_lt (lt_trans one_pos h1)
  constructor
  · simp [formatBatteryPercent, not_lt.mpr h0]
  · have hc : batteryClamped L = 1 := by
      unfold batteryClamped
      rw [if_pos h0, min_eq_left (le_of_lt h1)]
      exact max_eq_right zero_le_one
    rw [batteryFillPx, hc]
    norm_num [innerPx, jsRound]

/-- Witness for C9 at L = 3/2 = 1.5: text "150%", fill width 20. -/
theorem battery_percent_unclamped_above_one_witness :
    (1 : ℚ) < 3/2 ∧
    (formatBatteryPercent (some (3/2)) = toString (jsRound ((3/2 : ℚ) * 100)) ++ "%" ∧
     batteryFillPx (3/2) = 20) :=
  ⟨by norm_num, battery_percent_unclamped_above_one (3/2) (by norm_num)⟩

/-- C7: displayed probability p < 3 selects the muted closed-umbrella
branch; 3 ≤ p ≤ 19 selects the outlined open umbrella in muted color;
p ≥ 20 selects the filled umbrella in full-brightness color; the boundaries
at 3 and 20 are inclusive (2 closed, 3 and 19 outlined, 20 filled). -/
theorem precip_thresholds_spec (p : ℤ) :
    (p < 3 → precipShowsClosed p = true) ∧
    (3 ≤ p → p ≤ 19 → precipShowsClosed p = false ∧
      precipIconName p = "umbrella-outline" ∧ precipIconColor p = "#9aa0a6") ∧
    (20 ≤ p → precipShowsClosed p = false ∧
      precipIconName p = "umbrella" ∧ precipIconColor p = "#ffffff") ∧
    precipShowsClosed 2 = true ∧ precipShowsClosed 3 = false ∧
    precipIconName 3 = "umbrella-outline" ∧
    precipIconName 19 = "umbrella-outline" ∧ precipIconName 20 = "umbrella" := by
  refine ⟨fun hlt => ?_, fun h3 h19 => ⟨?_, ?_, ?_⟩, fun h20 => ⟨?_, ?_, ?_⟩,
    by decide, by decide, by decide, by decide, by decide⟩
  · simp [precipShowsClosed, hlt]
  · simp [precipShowsClosed]
    omega
  · rw [precipIconName, if_neg (by omega)]
  · rw [precipIconColor, if_neg (by omega)]
  · simp [precipShowsClosed]
    omega
  · rw [precipIconName, if_pos h20]
  · rw [precipIconColor, if_pos h20]

/-- Witness for C7 at p = 19: outlined muted open umbrella. -/
theorem precip_thresholds_spec_witness :
    (3 : ℤ) ≤ 19 ∧ (19 : ℤ) ≤ 19 ∧
    (precipShowsClosed 19 = false ∧ precipIconName 19 = "umbrella-outline" ∧
     precipIconColor 19 = "#9aa0a6") :=
  ⟨by decide, by decide,
   (precip_thresholds_spec 19).2.1 (by decide) (by decide)⟩

/-- C8: the Wi-Fi level is round(strength/34) clamped to [0,3] when the
strength is known, 0 when unknown; it always lies in {0,1,2,3}; anchors
0 → 0, 34 → 1, 100 → 3. -/
theorem wifi_quantizer_spec (s : ℚ) (o : Option ℚ) :
    wifiLevelOf (some s) = max 0 (min 3 (jsRound (s / 34))) ∧
    wifiLevelOf none = 0 ∧
    0 ≤ wifiLevelOf o ∧ wifiLevelOf o ≤ 3 ∧
    wifiLevelOf (some 0) = 0 ∧ wifiLevelOf (some 34) = 1 ∧
    wifiLevelOf (some 100) = 3 := by
  refine ⟨rfl, rfl, ?_, ?_, ?_, ?_, ?_⟩
  · cases o with
    | none => simp [wifiLevelOf]
    | some v =>
        simp only [wifiLevelOf]
        exact le_max_left _ _
  · cases o with
    | none => simp [wifiLevelOf]
    | some v =>
        simp only [wifiLevelOf]
        exact max_le (by norm_num) (min_le_left _ _)
  · simp only [wifiLevelOf]
    rw [show jsRound ((0:ℚ) / 34) = 0 from
      jsRound_eq _ 0 (by norm_num) (by norm_num)]
    decide
  · simp only [wifiLevelOf]
    rw [show jsRound ((34:ℚ) / 34) = 1 from
      jsRound_eq _ 1 (by norm_num) (by norm_num)]
    decide
  · simp only [wifiLevelOf]
    rw [show jsRound ((100:ℚ) / 34) = 3 from
      jsRound_eq _ 3 (by norm_num) (by norm_num)]
    decide

/-- C4: the cellular level from a raw signal value v is
round(v/100*4) clamped to [0,4] for v in [0,100]; round(((v+140)/96)*4)
clamped to [0,4] for v in [-140,-44] (anchors -44 → 4, -140 → 0, -92 → 2);
2 for any other present value; and 0 when no value is present. -/
theorem cellular_quantization_spec (v : ℚ) :
    (0 ≤ v → v ≤ 100 →
      cellLevelOf (some v) = max 0 (min 4 (jsRound (v / 100 * 4)))) ∧
    (-140 ≤ v → v ≤ -44 →
      cellLevelOf (some v) = max 0 (min 4 (jsRound ((v + 140) / 96 * 4)))) ∧
    (¬(0 ≤ v ∧ v ≤ 100) → ¬(-140 ≤ v ∧ v ≤ -44) →
      cellLevelOf (some v) = 2) ∧
    cellLevelOf none = 0 ∧
    cellLevelOf (some (-44)) = 4 ∧ cellLevelOf (some (-140)) = 0 ∧
    cellLevelOf (some (-92)) = 2 := by
  refine ⟨fun h0 h100 => ?_, fun hlo hhi => ?_, fun hp hd => ?_, rfl, ?_, ?_, ?_⟩
  · simp only [cellLevelOf]
    rw [if_pos ⟨h0, h100⟩]
  · have hnp : ¬(0 ≤ v ∧ v ≤ 100) := by
      rintro ⟨h0, -⟩
      linarith
    simp only [cellLevelOf]
    rw [if_neg hnp, if_pos ⟨hlo, hhi⟩]
    norm_num
  · simp only [cellLevelOf]
    rw [if_neg hp, if_neg hd]
  · simp only [cellLevelOf]
    rw [if_neg (show ¬((0:ℚ) ≤ -44 ∧ (-44:ℚ) ≤ 100) by norm_num),
      if_pos (show (-140:ℚ) ≤ -44 ∧ (-44:ℚ) ≤ -44 by norm_num)]
    rw [show jsRound (((-44:ℚ) + 140) / (-44 + 140) * 4) = 4 from
      jsRound_eq _ 4 (by norm_num) (by norm_num)]
    decide
  · simp only [cellLevelOf]
    rw [if_neg (show ¬((0:ℚ) ≤ -140 ∧ (-140:ℚ) ≤ 100) by norm_num),
      if_pos (show (-140:ℚ) ≤ -140 ∧ (-140:ℚ) ≤ -44 by norm_num)]
    rw [show jsRound (((-140:ℚ) + 140) / (-44 + 140) * 4) = 0 from
      jsRound_eq _ 0 (by norm_num) (by norm_num)]
    decide
  · simp only [cellLevelOf]
    rw [if_neg (show ¬((0:ℚ) ≤ -92 ∧ (-92:ℚ) ≤ 100) by norm_num),
      if_pos (show (-140:ℚ) ≤ -92 ∧ (-92:ℚ) ≤ -44 by norm_num)]
    rw [show jsRound (((-92:ℚ) + 140) / (-44 + 140) * 4) = 2 from
      jsRound_eq _ 2 (by norm_num) (by norm_num)]
    decide

/-- Witness for C4 at v = 80 (percentage branch): level 3. -/
theorem cellular_quantization_spec_witness :
    (0 : ℚ) ≤ 80 ∧ (80 : ℚ) ≤ 100 ∧
    cellLevelOf (some 80) = max 0 (min 4 (jsRound ((80 : ℚ) / 100 * 4))) :=
  ⟨by norm_num, by norm_num,
   (cellular_quantization_spec 80).1 (by norm_num) (by norm_num)⟩

/-- C10 (implicit): whenever isInternetReachable is reported false, both
radio "active" flags are false — regardless of isConnected and the
connectivity type — and every cellular bar and every Wi-Fi arc renders at
the dimmed 0.45 opacity. -/
theorem reachability_gates_active_flags (n : NetInfoState)
    (h : n.isInternetReachable = some false) :
    wifiActive n = false ∧ cellActive n = false ∧
    (∀ i : ℕ, cellBarOpacity n i = 0.45) ∧
    wifiOuterOpacity n = 0.45 ∧ wifiMidOpacity n = 0.45 ∧
    wifiDotOpacity n = 0.45 := by
  have hconn : netConnected n = false := by
    simp [netConnected, h]
  have hw : wifiActive n = false := by
    simp [wifiActive, hconn]
  have hc : cellActive n = false := by
    simp [cellActive, hconn]
  refine ⟨hw, hc, fun i => ?_, ?_, ?_, ?_⟩
  · simp [cellBarOpacity, hc]
  · simp [wifiOuterOpacity, hw]
  · simp [wifiMidOpacity, hw]
  · simp [wifiDotOpacity, hw]

/-- A connected Wi-Fi observation whose internet is reported unreachable. -/
def unreachableWifiNet : NetInfoState :=
  { type := "wifi", isConnected := some true,
    isInternetReachable := some false, strength := some 100,
    signalStrength := some 100 }

/-- Witness for C10: connected Wi-Fi with full strength but unreachable
internet still renders everything dimmed. -/
theorem reachability_gates_active_flags_witness :
    unreachableWifiNet.isInternetReachable = some false ∧
    (wifiActive unreachableWifiNet = false ∧
     cellBarOpacity unreachableWifiNet 0 = 0.45 ∧
     wifiOuterOpacity unreachableWifiNet = 0.45) := by
  refine ⟨rfl, ?_, ?_, ?_⟩
  · exact (reachability_gates_active_flags unreachableWifiNet rfl).1
  · exact (reachability_gates_active_flags unreachableWifiNet rfl).2.2.1 0
  · exact (reachability_gates_active_flags unreachableWifiNet rfl).2.2.2.1

/-- C3: the trend is rising exactly when the current timestamp is found in
the hourly time series (exact string match) and the temperature at the next
index exists and is strictly greater than the current temperature; in every
other case — not found, or found at the last entry — the trend is falling. -/
theorem temperature_trend_spec (w : WeatherApiResponse) :
    isRising w = true ↔
      ∃ i, w.hourly.time.findIdx? (fun t => t == w.current.time) = some i ∧
        ∃ t, w.hourly.temperature_2m.get? (i + 1) = some t ∧
          w.current.temperature_2m < t := by
  cases hf : w.hourly.time.findIdx? (fun t => t == w.current.time) with
  | none =>
      have hc : currentIndex w = -1 := by simp [currentIndex, hf]
      have hn : nextHourIndex w = -1 := by simp [nextHourIndex, hc]
      constructor
      · intro hr
        rw [isRising, hn] at hr
        simp at hr
      · rintro ⟨i, hi, -⟩
        cases hi
  | some i =>
      have hc : currentIndex w = i := by simp [currentIndex, hf]
      have hne : ((i : ℤ)) ≠ -1 := by omega
      have hn : nextHourIndex w = (i : ℤ) + 1 := by
        rw [nextHourIndex, hc, if_pos hne]
      have htn : ((i : ℤ) + 1).toNat = i + 1 := by omega
      rw [isRising, hn, htn]
      constructor
      · intro hr
        rw [Bool.and_eq_true] at hr
        obtain ⟨-, hr2⟩ := hr
        cases hg : w.hourly.temperature_2m.get? (i + 1) with
        | none => rw [hg] at hr2; cases hr2
        | some t =>
            rw [hg] at hr2
            exact ⟨i, rfl, t, hg, of_decide_eq_true hr2⟩
      · rintro ⟨j, hj, t, hg, hlt⟩
        injection hj with hj
        subst hj
        rw [Bool.and_eq_true]
        refine ⟨bne_iff_ne.mpr (by omega), ?_⟩
        rw [hg]
        exact decide_eq_true hlt

/-- Dropping all but the final element leaves the last element (or the
default on an empty list). -/
theorem listMaxD_drop_length_sub_one (l : List ℤ) (d : ℤ) :
    listMaxD (l.drop (l.length - 1)) d = l.getLast?.getD d := by
  induction l with
  | nil => rfl
  | cons a t ih =>
      cases t with
      | nil => rfl
      | cons b t2 =>
          have h1 : (a :: b :: t2).drop ((a :: b :: t2).length - 1)
              = (b :: t2).drop ((b :: t2).length - 1) := by
            simp [List.drop_succ_cons]
          rw [h1, ih, List.getLast?_cons_cons]

/-- The displayed precipitation is the guarded maximum of the sliced tail. -/
theorem maxPrecipitation_eq_listMaxD (w : WeatherApiResponse) :
    maxPrecipitation w =
      listMaxD (restOfDayProbs w) w.current.precipitation_probability := by
  unfold maxPrecipitation listMaxD
  rfl

/-- C1 (amended): when the current timestamp is found at index i, the
displayed precipitation is the maximum of the hourly entries after i,
falling back to the current observation's probability when that tail is
empty; when the timestamp is NOT found, JavaScript `slice(-1)` keeps the
last hourly entry, so the display equals the last entry's probability, and
only an empty hourly series falls back to the current observation. -/
theorem precip_display_amended (w : WeatherApiResponse) :
    (∀ i, w.hourly.time.findIdx? (fun t => t == w.current.time) = some i →
      maxPrecipitation w =
        listMaxD (w.hourly.precipitation_probability.drop (i + 1))
          w.current.precipitation_probability) ∧
    (w.hourly.time.findIdx? (fun t => t == w.current.time) = none →
      maxPrecipitation w =
        (w.hourly.precipitation_probability.getLast?).getD
          w.current.precipitation_probability) := by
  constructor
  · intro i hf
    have hc : currentIndex w = i := by simp [currentIndex, hf]
    have hne : ((i : ℤ)) ≠ -1 := by omega
    have hn : nextHourIndex w = (i : ℤ) + 1 := by
      rw [nextHourIndex, hc, if_pos hne]
    have hro : restOfDayProbs w
        = w.hourly.precipitation_probability.drop (i + 1) := by
      rw [restOfDayProbs, hn, jsSlice]
      rw [if_neg (show ¬((i : ℤ) + 1 < 0) by omega)]
      congr 1
    rw [maxPrecipitation_eq_listMaxD, hro]
  · intro hf
    have hc : currentIndex w = -1 := by simp [currentIndex, hf]
    have hn : nextHourIndex w = -1 := by simp [nextHourIndex, hc]
    have hro : restOfDayProbs w
        = w.hourly.precipitation_probability.drop
            (w.hourly.precipitation_probability.length - 1) := by
      rw [restOfDayProbs, hn, jsSlice]
      rw [if_pos (show (-1 : ℤ) < 0 by norm_num)]
      congr 1
      omega
    rw [maxPrecipitation_eq_listMaxD, hro, listMaxD_drop_length_sub_one]

/-- A snapshot whose current timestamp is absent from the hourly series,
with one hourly entry (probability 50) and current probability 10. -/
def precipNotFoundSnapshot : WeatherApiResponse :=
  { current := { time := "2024-01-01T05:00"
                 temperature_2m := 60
                 weathercode := 0
                 precipitation_probability := 10 }
    hourly := { time := ["2024-01-01T10:00"]
                temperature_2m := [60]
                weathercode := [0]
                precipitation_probability := [50] }
    daily := { time := []
               weathercode := []
               temperature_2m_max := []
               temperature_2m_min := []
               precipitation_probability_max := [] } }

/-- Counterexample to C1 as stated: the current timestamp is not found in
the hourly series, yet the displayed precipitation is 50 (the last hourly
entry) and not the current observation's own probability 10. -/
theorem precip_display_counterexample :
    precipNotFoundSnapshot.hourly.time.findIdx?
      (fun t => t == precipNotFoundSnapshot.current.time) = none ∧
    maxPrecipitation precipNotFoundSnapshot = 50 ∧
    precipNotFoundSnapshot.current.precipitation_probability = 10 :=
  ⟨rfl, rfl, rfl⟩

/-- A snapshot whose current timestamp is the first hourly entry. -/
def precipFoundSnapshot : WeatherApiResponse :=
  { current := { time := "2024-01-01T10:00"
                 temperature_2m := 60
                 weathercode := 0
                 precipitation_probability := 7 }
    hourly := { time := ["2024-01-01T10:00", "2024-01-01T11:00"]
                temperature_2m := [60, 65]
                weathercode := [0, 0]
                precipitation_probability := [5, 30] }
    daily := { time := []
               weathercode := []
               temperature_2m_max := []
               temperature_2m_min := []
               precipitation_probability_max := [] } }

/-- Witness for C1 (amended) at a snapshot found at index 0: the display is
the maximum over the tail after the current hour. -/
theorem precip_display_amended_witness :
    precipFoundSnapshot.hourly.time.findIdx?
      (fun t => t == precipFoundSnapshot.current.time) = some 0 ∧
    maxPrecipitation precipFoundSnapshot =
      listMaxD (precipFoundSnapshot.hourly.precipitation_probability.drop (0 + 1))
        precipFoundSnapshot.current.precipitation_probability :=
  ⟨rfl, (precip_display_amended precipFoundSnapshot).1 0 rfl⟩
